import Mathlib

/-!
Verification development for the Deebotozmo vacuum-bot dispatch core
(`deebotozmo/vacuum_bot.py` and `deebotozmo/commands/*`).

Pure shallow embedding: dictionaries become structures with `Option` fields,
Python truthiness is made explicit, and the observable effects of each
handler (events published, refreshes requested, outcome of a dispatch) are
returned as values.
-/

namespace Deebotozmo

/-- Operating states of the appliance.
Modelled from the spec: `VacuumState` lives in `deebotozmo/models.py`, which is
not under `src/`; the spec lists the enumeration
{IDLE, CLEANING, PAUSED, RETURNING, DOCKED, ERROR}. -/
inductive VacuumState where
  | idle
  | cleaning
  | paused
  | returning
  | docked
  | error
  deriving DecidableEq, Repr

/-- A status event, as constructed throughout `vacuum_bot.py`:
`StatusEvent(available, state)` with a nullable state
(`self._status = StatusEvent(vacuum.status == 1, None)` at construction).
The class itself is declared in `deebotozmo/events.py` (not under `src/`);
the spec says a Status Event carries `available: bool` and `state: enum|null`. -/
structure StatusEvent where
  available : Bool
  state : Option VacuumState
  deriving DecidableEq, Repr

/-- Clean actions. Modelled from the spec: `CleanAction` is declared in
`deebotozmo/commands/clean.py` (not under `src/`); `vacuum_bot.py` uses
`CleanAction.RESUME` and `CleanAction.START`, and the real enum also has
pause/stop members for the other clean actions. -/
inductive CleanAction where
  | start
  | pause
  | resume
  | stop
  deriving DecidableEq, Repr

/-- Commands as compared by `execute_command`.  `Clean` (from
`deebotozmo/commands/clean.py`, not under `src/`) is determined by its action
for the equality tests `command == Clean(CleanAction.RESUME)` /
`command == Clean(CleanAction.START)`; every other command is opaque here and
identified by its wire name. -/
inductive Cmd where
  | clean (action : CleanAction)
  | other (name : String)
  deriving DecidableEq, Repr

/-- The state-dependent rewrite at the top of `VacuumBot.execute_command`
(`vacuum_bot.py` lines 129-140): the returned command is the one transmitted
to `self.json.send_command`.  `self._status.state` is the nullable state of
the current status event. -/
def execute_command_transmitted (status : StatusEvent) (command : Cmd) : Cmd :=
  if command = Cmd.clean CleanAction.resume ∧ status.state ≠ some VacuumState.paused then
    Cmd.clean CleanAction.start
  else if command = Cmd.clean CleanAction.start ∧ status.state = some VacuumState.paused then
    Cmd.clean CleanAction.resume
  else
    command

/-- Embedding of `VacuumBot.set_available` (`vacuum_bot.py` lines 147-150): the status
event passed to `self.events.status.notify`, built from the requested
availability flag and the current status' state. -/
def set_available_published (available : Bool) (current : StatusEvent) : StatusEvent :=
  StatusEvent.mk available current.state

/-- The ten event emitters of the bot, exactly the keyword arguments of the
`VacuumEmitter(...)` call in `VacuumBot.__init__` (`vacuum_bot.py`
lines 84-109).  `inspect.getmembers` over that object enumerates these
attributes. -/
inductive EmitterName where
  | battery
  | clean_logs
  | error
  | fan_speed
  | lifespan
  | map
  | rooms
  | stats
  | status
  | water_info
  deriving DecidableEq, Repr

/-- The `on_status` reconciliation subscriber (`vacuum_bot.py` lines 111-125):
how many times `request_refresh()` is invoked on each emitter when the status
transitions from `last` to `event`.  The first branch iterates every
`EventEmitter` member of `self.events` skipping the one named `"status"`; the
`elif` branch refreshes `clean_logs` only. -/
def on_status_refresh_count (last event : StatusEvent) (e : EmitterName) : Nat :=
  if ¬last.available ∧ event.available then
    if e = EmitterName.status then 0 else 1
  else if last.state ≠ some VacuumState.docked ∧ event.state = some VacuumState.docked then
    if e = EmitterName.clean_logs then 1 else 0
  else
    0

/-! ### Name canonicalization before registry lookup

`vacuum_bot.py` lines 45-46 and 176-178:
`re.sub("^((on)|(off)|(report))", "get", command_name)` — an anchored
replacement, so at most the one leading occurrence is rewritten. -/

/-- The anchored rewrite of a leading `on`/`off`/`report` to `get`, on the
character list of the name, checking the alternatives in the regex's order
(they are mutually exclusive, so the order does not matter). -/
def canonicalizeChars (l : List Char) : List Char :=
  if ['o', 'n'].isPrefixOf l then 'g' :: 'e' :: 't' :: l.drop 2
  else if ['o', 'f', 'f'].isPrefixOf l then 'g' :: 'e' :: 't' :: l.drop 3
  else if ['r', 'e', 'p', 'o', 'r', 't'].isPrefixOf l then 'g' :: 'e' :: 't' :: l.drop 6
  else l

/-- Canonicalization of a wire name, `re.sub(_COMMAND_REPLACE_PATTERN,
_COMMAND_REPLACE_REPLACEMENT, command_name)` in `VacuumBot.handle`. -/
def canonicalize (s : String) : String :=
  String.mk (canonicalizeChars s.data)

/-! ### The command registry -/

/-- The keys of `COMMANDS` (`deebotozmo/commands/__init__.py`): the `name`
attribute of each registered command class.  `getChargeState` and
`getWaterInfo` are declared under `src/`; the remaining name constants live in
command modules not under `src/` and are modelled from the spec, which gives
the canonical `get`-style names (e.g. `"onBattery"` resolves to
`"getBattery"`) and the class list of `__init__.py`. -/
def COMMANDS_names : List String :=
  ["getBattery", "charge", "getChargeState", "clean", "cleanArea",
   "getFanSpeed", "setFanSpeed", "getLifeSpan", "getStats",
   "getWaterInfo", "setWaterInfo"]

/-! ### Dispatch (`VacuumBot.handle`) -/

/-- The requested-command argument of `VacuumBot.handle`: `None` for an
unsolicited (MQTT) push, a new-format `Command` instance, or an old-format
`commands_old.Command` instance (the `Union[Command, OldCommand]` of
`execute_command`). -/
inductive ReqCmd where
  | newCmd
  | oldCmd
  deriving DecidableEq, Repr

/-- The observable routing decisions of one `VacuumBot.handle` call
(`vacuum_bot.py` lines 157-186). -/
structure HandleTrace where
  /-- True when `handle_requested` was called on the requested command object. -/
  delegated : Bool
  /-- The name after `re.sub`, when the normalization branch ran. -/
  normalized : Option String
  /-- The registry key that `COMMANDS.get` resolved, when it hit. -/
  registryHit : Option String
  /-- Set when `_handle_old` was called (with this name) after the registry missed. -/
  fellBack : Option String
  deriving DecidableEq, Repr

/-- Embedding of `VacuumBot.handle`: delegate iff
`requested_command and isinstance(requested_command, Command)`; otherwise
normalize the name, try `COMMANDS.get`, else fall back to `_handle_old`. -/
def handle (command_name : String) (requested_command : Option ReqCmd) : HandleTrace :=
  match requested_command with
  | some ReqCmd.newCmd =>
      { delegated := true, normalized := none, registryHit := none, fellBack := none }
  | _ =>
      let name := canonicalize command_name
      if name ∈ COMMANDS_names then
        { delegated := false, normalized := some name, registryHit := some name,
          fellBack := none }
      else
        { delegated := false, normalized := some name, registryHit := none,
          fellBack := some name }

/-! ### The legacy fallback (`VacuumBot._handle_old`, lines 188-255) -/

/-- ASCII lower-casing of a name, `event_name.lower()`. -/
def lowerChars (l : List Char) : List Char :=
  l.map Char.toLower

/-- The prefix-stripping loop of `_handle_old`: for each prefix of
`["on", "off", "report", "get"]` in order, strip it when the current name
starts with it (so several prefixes can be stripped in sequence). -/
def stripOldNamePieces (l : List Char) : List Char :=
  let l1 := if ['o', 'n'].isPrefixOf l then l.drop 2 else l
  let l2 := if ['o', 'f', 'f'].isPrefixOf l1 then l1.drop 3 else l1
  let l3 := if ['r', 'e', 'p', 'o', 'r', 't'].isPrefixOf l2 then l2.drop 6 else l2
  if ['g', 'e', 't'].isPrefixOf l3 then l3.drop 3 else l3

/-- The trailing version-marker strip: `if event_name.endswith("_V2".lower())`
drop the last three characters (the name is already lower-cased here). -/
def stripV2 (l : List Char) : List Char :=
  if ['_', 'v', '2'].isSuffixOf l then l.take (l.length - 3) else l

/-- The fully reduced event name `_handle_old` classifies on: lower-case,
strip prefixes, strip the `_v2` marker. -/
def oldEventKey (s : String) : String :=
  String.mk (stripV2 (stripOldNamePieces (lowerChars s.data)))

/-- The list of obsolete canonical topics that `_handle_old` rejects with
`RuntimeError` (`vacuum_bot.py` lines 210-223). -/
def obsoleteTopics : List String :=
  ["speed", "waterinfo", "lifespan", "stats", "battery", "chargestate",
   "charge", "clean", "cleanlogs", "error", "playsound", "cleaninfo"]

/-- Tests whether `pat` occurs as a contiguous substring of `s` (`"map" in event_name`). -/
def containsSub (pat : List Char) : List Char → Bool
  | [] => pat.isPrefixOf ([] : List Char)
  | c :: rest => pat.isPrefixOf (c :: rest) || containsSub pat rest

/-- Presence of `body`/`header` in the (possibly unwrapped) payload:
`event.get("body", {})` and `event.get("header", {})` are truthy iff the key
is present with a non-empty dict. -/
structure PayloadCore where
  bodyTruthy : Bool
  headerTruthy : Bool
  deriving DecidableEq, Repr

/-- The fields of the raw payload that `_handle_old` branches on:
`ret` (`event.get("ret")`), the optional `resp` sub-payload
(`event.get("resp", event)`), and the payload's own `body`/`header`. -/
structure OldPayload where
  ret : Option String
  resp : Option PayloadCore
  core : PayloadCore
  deriving DecidableEq, Repr

/-- How one `_handle_old` call ends. -/
inductive OldOutcome where
  /-- The `raise RuntimeError(...)` outcome on an obsolete canonical topic. -/
  | fatal
  /-- Requested payload with `ret != "ok"`: warn and return. -/
  | droppedRetNotOk
  /-- Missing/empty `body` or `header`: warn and return. -/
  | droppedInvalid
  /-- Routed to `self.map.handle`. -/
  | mapHandled
  /-- A `set*`-prefixed push: ignored. -/
  | setIgnored
  /-- Logged as unknown and dropped. -/
  | droppedUnknown
  deriving DecidableEq, Repr

/-- The tail of `_handle_old` after the `ret`/`resp` unwrapping: validity
check, then map routing / `set` ignoring / unknown logging. -/
def handleOldCore (key : String) (core : PayloadCore) : OldOutcome :=
  if ¬(core.bodyTruthy ∧ core.headerTruthy) then OldOutcome.droppedInvalid
  else if containsSub ['m', 'a', 'p'] key.data ∨ key = "pos" then OldOutcome.mapHandled
  else if ['s', 'e', 't'].isPrefixOf key.data then OldOutcome.setIgnored
  else OldOutcome.droppedUnknown

/-- Embedding of `VacuumBot._handle_old`: reduce the name, reject obsolete topics, check
`ret` for requested payloads (unwrapping `resp` when present), then classify. -/
def handle_old (event_name : String) (event : OldPayload) (requested : Bool) : OldOutcome :=
  let key := oldEventKey event_name
  if key ∈ obsoleteTopics then OldOutcome.fatal
  else if requested then
    if event.ret = some "ok" then handleOldCore key (event.resp.getD event.core)
    else OldOutcome.droppedRetNotOk
  else handleOldCore key event.core

/-- The canonicalization-before-lookup algorithm as the spec's §4.1 words
describe it, written from the spec (not the source) for comparison with
`canonicalize`: first strip one prefix from the ordered set
{`on`, `off`, `report`} if present (priority order, at most one strip), then
strip a trailing case-insensitive `_v2` marker if present, then rewrite a
leading `on`/`off`/`report` to `get` (anchored at position 0). -/
def specCanonicalizeChars (l : List Char) : List Char :=
  let l1 :=
    if ['o', 'n'].isPrefixOf l then l.drop 2
    else if ['o', 'f', 'f'].isPrefixOf l then l.drop 3
    else if ['r', 'e', 'p', 'o', 'r', 't'].isPrefixOf l then l.drop 6
    else l
  let l2 :=
    if ['_', 'v', '2'].isSuffixOf (lowerChars l1) then l1.take (l1.length - 3) else l1
  canonicalizeChars l2

/-- Version of `specCanonicalizeChars` on strings. -/
def specCanonicalize (s : String) : String :=
  String.mk (specCanonicalizeChars s.data)

/-! ### `GetChargeState` (`deebotozmo/commands/charge_state.py`) -/

/-- A JSON scalar as compared by the handler: `body[_CODE] == 0` is an
integer comparison, `body["code"] == "30007"` a string one, and in Python an
int never equals a str. -/
inductive JVal where
  | int (n : Int)
  | str (s : String)
  deriving DecidableEq, Repr

/-- The one field `GetChargeState._handle_body_data_dict` reads from its data
dict: `data.get("isCharging")`. -/
structure ChargeData where
  isCharging : Option JVal
  deriving DecidableEq, Repr

/-- The fields of the response body that `GetChargeState._handle_body`
branches on: `code` (`_CODE`, equal to `"code"` — the same key is read as
`body[_CODE]` and `body["code"]`), `msg`, the optional `data` dict, and the
body's own top-level `isCharging` (consulted via `body.get("data", body)`
when `data` is absent). -/
structure ChargeBody where
  code : Option JVal
  msg : Option String
  data : Option ChargeData
  isCharging : Option JVal
  deriving DecidableEq, Repr

/-- The `body.get("data", body)` dict restricted to the field the data handler reads. -/
def ChargeBody.dataDict (b : ChargeBody) : ChargeData :=
  b.data.getD (ChargeData.mk b.isCharging)

/-- Embedding of `GetChargeState._handle_body_data_dict` (lines 17-27): notify a DOCKED
status iff `isCharging == 1`; always report success.  The result pairs the
returned boolean with the status event published, if any. -/
def getChargeState_handle_body_data_dict (data : ChargeData) :
    Bool × Option StatusEvent :=
  if data.isCharging = some (JVal.int 1) then
    (true, some (StatusEvent.mk true (some VacuumState.docked)))
  else
    (true, none)

/-- Embedding of `GetChargeState._handle_body` (lines 29-47).  On success (`code` absent or
`== 0`) delegate to the data handler; on a recognized `msg == "fail"` code
(`"30007"`/`"5"`/`"3"`) a `status` is computed (DOCKED/ERROR/ERROR) but the
event actually notified is always `StatusEvent(True, DOCKED)`; on anything
else fail without publishing.  `VacuumState` members are truthy, so
`if status:` tests presence.  -/
def getChargeState_handle_body (body : ChargeBody) : Bool × Option StatusEvent :=
  if body.code = none ∨ body.code = some (JVal.int 0) then
    getChargeState_handle_body_data_dict body.dataDict
  else
    let status : Option VacuumState :=
      if body.msg = some "fail" then
        if body.code = some (JVal.str "30007") then some VacuumState.docked
        else if body.code = some (JVal.str "5") then some VacuumState.error
        else if body.code = some (JVal.str "3") then some VacuumState.error
        else none
      else none
    if status.isSome then
      (true, some (StatusEvent.mk true (some VacuumState.docked)))
    else
      (false, none)

/-! ### `GetWaterInfo` (`deebotozmo/commands/water_info.py`) -/

/-- The `WaterLevel` enum: LOW = 1, MEDIUM = 2, HIGH = 3, ULTRAHIGH = 4. -/
inductive WaterLevel where
  | low
  | medium
  | high
  | ultrahigh
  deriving DecidableEq, Repr

/-- Lookup `WaterLevel(int(amount))`: look the integer up among the enum values;
`ValueError` (no such value) becomes `none`. -/
def WaterLevel.fromInt : Int → Option WaterLevel
  | 1 => some WaterLevel.low
  | 2 => some WaterLevel.medium
  | 3 => some WaterLevel.high
  | 4 => some WaterLevel.ultrahigh
  | _ => none

/-- Modelled from the spec: `DisplayNameIntEnum.display_name`
(`deebotozmo/commands/base.py`, not under `src/`) is the member name in lower
case unless a display name was set explicitly; `WaterLevel` sets none
(`tests/commands/helpers.py` compares `member.name.lower()` with
`member.display_name.lower()`). -/
def WaterLevel.display_name : WaterLevel → String
  | WaterLevel.low => "low"
  | WaterLevel.medium => "medium"
  | WaterLevel.high => "high"
  | WaterLevel.ultrahigh => "ultrahigh"

/-- The water-info event: `WaterInfoEvent(mop_attached, water_level)`
(`deebotozmo/events.py` is not under `src/`; the spec lists the topic as
"water level + mop-attached flag", and the call site passes the mop flag then
the level's display name). -/
structure WaterInfoEvent where
  mop_attached : Bool
  water_level : String
  deriving DecidableEq, Repr

/-- The fields `GetWaterInfo._handle_body_data_dict` reads:
`data.get("amount")` and `data.get("enable")`. -/
structure WaterData where
  amount : Option Int
  enable : Option Int
  deriving DecidableEq, Repr

/-- Python truthiness `bool(data.get("enable"))`: false for a missing key or `0`, true for any
other integer. -/
def WaterData.mopAttached (d : WaterData) : Bool :=
  match d.enable with
  | none => false
  | some n => n ≠ 0

/-- Embedding of `GetWaterInfo._handle_body_data_dict` (lines 25-46): with an `amount`
that is a valid `WaterLevel`, notify the event and succeed; with a missing
`amount` or a `ValueError` from `WaterLevel(int(amount))`, warn and fail
without notifying. -/
def getWaterInfo_handle_body_data_dict (data : WaterData) :
    Bool × Option WaterInfoEvent :=
  match data.amount with
  | none => (false, none)
  | some amount =>
    match WaterLevel.fromInt amount with
    | some level =>
        (true, some (WaterInfoEvent.mk data.mopAttached level.display_name))
    | none => (false, none)

/-- Cache semantics: `EventEmitter.notify` stores the published value as the emitter's latest;
a handler that publishes nothing leaves the cached value alone
(`deebotozmo/event_emitter.py` is not under `src/`; modelled from the spec:
"`notify(value)`: stores `value` as latest" and "the topic's cached value
remains the prior value" on a failed parse). -/
def cacheAfter {α : Type} (prior : Option α) (published : Option α) : Option α :=
  match published with
  | some v => some v
  | none => prior

/-! ## Helper lemmas -/

/-- One canonicalization pass leaves nothing for a second pass to rewrite. -/
theorem canonicalizeChars_idem (l : List Char) :
    canonicalizeChars (canonicalizeChars l) = canonicalizeChars l := by
  unfold canonicalizeChars
  split_ifs <;> simp_all [List.isPrefixOf]

/-- The classification tail of `_handle_old` never raises: after the obsolete
topic check only warn/route/ignore outcomes remain. -/
theorem handleOldCore_ne_fatal (key : String) (core : PayloadCore) :
    handleOldCore key core ≠ OldOutcome.fatal := by
  unfold handleOldCore
  split_ifs <;> simp

/-! ## Claims -/

/-- C1: `execute_command` transmits start-cleaning instead of resume-cleaning
when the current state is not PAUSED, resume-cleaning instead of
start-cleaning when it is PAUSED, and everything else (including these two in
the remaining state constellations) unmodified; the rewrite precedes
transmission (`execute_command_transmitted` is the command handed to
`send_command`). -/
theorem c1_execute_command_state_rewrite (status : StatusEvent) (command : Cmd) :
    (command = Cmd.clean CleanAction.resume → status.state ≠ some VacuumState.paused →
      execute_command_transmitted status command = Cmd.clean CleanAction.start) ∧
    (command = Cmd.clean CleanAction.start → status.state = some VacuumState.paused →
      execute_command_transmitted status command = Cmd.clean CleanAction.resume) ∧
    (command = Cmd.clean CleanAction.resume → status.state = some VacuumState.paused →
      execute_command_transmitted status command = command) ∧
    (command = Cmd.clean CleanAction.start → status.state ≠ some VacuumState.paused →
      execute_command_transmitted status command = command) ∧
    (command ≠ Cmd.clean CleanAction.resume → command ≠ Cmd.clean CleanAction.start →
      execute_command_transmitted status command = command) := by
  refine ⟨?_, ?_, ?_, ?_, ?_⟩ <;> intro h1 h2 <;>
    simp [execute_command_transmitted, h1, h2]

/-- Witness for C1: resume while cleaning transmits start, start while paused
transmits resume, a different command passes through unmodified. -/
theorem c1_execute_command_state_rewrite_witness :
    execute_command_transmitted (StatusEvent.mk true (some VacuumState.cleaning))
      (Cmd.clean CleanAction.resume) = Cmd.clean CleanAction.start ∧
    execute_command_transmitted (StatusEvent.mk true (some VacuumState.paused))
      (Cmd.clean CleanAction.start) = Cmd.clean CleanAction.resume ∧
    execute_command_transmitted (StatusEvent.mk true (some VacuumState.cleaning))
      (Cmd.other "charge") = Cmd.other "charge" := by
  refine ⟨?_, ?_, ?_⟩
  · exact (c1_execute_command_state_rewrite _ _).1 rfl (by decide)
  · exact (c1_execute_command_state_rewrite _ _).2.1 rfl rfl
  · exact (c1_execute_command_state_rewrite _ _).2.2.2.2 (by decide) (by decide)

/-- C2 counterexample: the claim's DOCKED-transition clause ("a transition
from state != DOCKED to state == DOCKED triggers exactly one request_refresh
on the clean-log emitter and none on any other emitter") is false when that
transition coincides with the unavailable→available transition: there the
full-refresh branch of `on_status` wins and the battery emitter is refreshed
too. -/
theorem c2_dock_transition_counterexample :
    ¬(∀ (last event : StatusEvent) (e : EmitterName),
        last.state ≠ some VacuumState.docked → event.state = some VacuumState.docked →
        on_status_refresh_count last event e =
          if e = EmitterName.clean_logs then 1 else 0) := by
  intro h
  have h2 := h (StatusEvent.mk false (some VacuumState.cleaning))
    (StatusEvent.mk true (some VacuumState.docked)) EmitterName.battery (by decide) rfl
  rw [show on_status_refresh_count (StatusEvent.mk false (some VacuumState.cleaning))
      (StatusEvent.mk true (some VacuumState.docked)) EmitterName.battery = 1 from by decide]
    at h2
  simp at h2

/-- C2 (amended): unavailable→available refreshes every emitter except the
status emitter; when that availability transition does NOT occur, a
transition into DOCKED from a non-DOCKED state refreshes exactly the clean-log
emitter once and no other; every remaining transition refreshes nothing. -/
theorem c2_on_status_refresh_rules (last event : StatusEvent) (e : EmitterName) :
    ((¬last.available ∧ event.available) →
      on_status_refresh_count last event e =
        if e = EmitterName.status then 0 else 1) ∧
    (¬(¬last.available ∧ event.available) →
      (last.state ≠ some VacuumState.docked ∧ event.state = some VacuumState.docked) →
      on_status_refresh_count last event e =
        if e = EmitterName.clean_logs then 1 else 0) ∧
    (¬(¬last.available ∧ event.available) →
      ¬(last.state ≠ some VacuumState.docked ∧ event.state = some VacuumState.docked) →
      on_status_refresh_count last event e = 0) := by
  refine ⟨?_, ?_, ?_⟩
  · intro h1
    unfold on_status_refresh_count
    rw [if_pos h1]
  · intro h1 h2
    unfold on_status_refresh_count
    rw [if_neg h1, if_pos h2]
  · intro h1 h2
    unfold on_status_refresh_count
    rw [if_neg h1, if_neg h2]

/-- Witness for C2 (amended): becoming available refreshes battery; docking
while already available refreshes battery zero times; DOCKED→DOCKED refreshes
nothing, not even clean-logs. -/
theorem c2_on_status_refresh_rules_witness :
    on_status_refresh_count (StatusEvent.mk false none) (StatusEvent.mk true none)
      EmitterName.battery = 1 ∧
    on_status_refresh_count (StatusEvent.mk true (some VacuumState.cleaning))
      (StatusEvent.mk true (some VacuumState.docked)) EmitterName.battery = 0 ∧
    on_status_refresh_count (StatusEvent.mk true (some VacuumState.docked))
      (StatusEvent.mk true (some VacuumState.docked)) EmitterName.clean_logs = 0 := by
  refine ⟨?_, ?_, ?_⟩
  · have h := (c2_on_status_refresh_rules (StatusEvent.mk false none)
      (StatusEvent.mk true none) EmitterName.battery).1 (by decide)
    simpa using h
  · have h := (c2_on_status_refresh_rules (StatusEvent.mk true (some VacuumState.cleaning))
      (StatusEvent.mk true (some VacuumState.docked)) EmitterName.battery).2.1
      (by decide) (by decide)
    simpa using h
  · exact (c2_on_status_refresh_rules (StatusEvent.mk true (some VacuumState.docked))
      (StatusEvent.mk true (some VacuumState.docked)) EmitterName.clean_logs).2.2
      (by decide) (by decide)

/-- C3 counterexample: the claim says every present requested command gets
exclusive delegation, but `handle` tests
`requested_command and isinstance(requested_command, Command)`: an old-format
requested command is present yet is NOT delegated to — it goes through
normalization and registry lookup instead. -/
theorem c3_requested_dispatch_counterexample :
    ¬(∀ (command_name : String) (requested_command : Option ReqCmd),
        requested_command ≠ none →
        (handle command_name requested_command).delegated = true ∧
        (handle command_name requested_command).normalized = none) := by
  intro h
  have h2 := h "getBattery" (some ReqCmd.oldCmd) (by simp)
  have h3 : (handle "getBattery" (some ReqCmd.oldCmd)).delegated = false := by decide
  rw [h2.1] at h3
  simp at h3

/-- C3 (amended): parsing is delegated exclusively to the requested command
object — bypassing normalization, registry and fallback — exactly when that
object is a new-format `Command`; when the requested command is absent or an
old-format command, name normalization (and registry/fallback dispatch on the
normalized name) happens instead. -/
theorem c3_requested_dispatch (command_name : String)
    (requested_command : Option ReqCmd) :
    (requested_command = some ReqCmd.newCmd →
      handle command_name requested_command =
        { delegated := true, normalized := none, registryHit := none,
          fellBack := none }) ∧
    (requested_command = none ∨ requested_command = some ReqCmd.oldCmd →
      (handle command_name requested_command).delegated = false ∧
      (handle command_name requested_command).normalized =
        some (canonicalize command_name)) := by
  constructor
  · intro h
    subst h
    rfl
  · intro h
    rcases h with h | h <;> subst h <;>
      · simp only [handle]
        split_ifs <;> simp

/-- Witness for C3 (amended): a new-format requested command is delegated to;
an unsolicited onBattery push is normalized to getBattery. -/
theorem c3_requested_dispatch_witness :
    handle "getBattery" (some ReqCmd.newCmd) =
      { delegated := true, normalized := none, registryHit := none,
        fellBack := none } ∧
    (handle "onBattery" none).normalized = some "getBattery" := by
  constructor
  · exact (c3_requested_dispatch "getBattery" (some ReqCmd.newCmd)).1 rfl
  · exact ((c3_requested_dispatch "onBattery" none).2 (Or.inl rfl)).2.trans (by decide)

/-- C4 counterexample: the claim's strip-then-rewrite algorithm
(`specCanonicalize`, written from the spec's words) disagrees with the code's
pre-lookup canonicalization (`canonicalize`, the anchored regex rewrite):
on `"onBattery"` the claim's algorithm yields `"Battery"` while the code
yields `"getBattery"` (which is what actually resolves in the registry), and
the claim's `_v2` strip does not happen in the code at all. -/
theorem c4_normalization_counterexample :
    specCanonicalize "onBattery" = "Battery" ∧
    canonicalize "onBattery" = "getBattery" ∧
    (handle "onBattery" none).registryHit = some "getBattery" ∧
    specCanonicalize "getFanSpeed_V2" = "getFanSpeed" ∧
    canonicalize "getFanSpeed_V2" = "getFanSpeed_V2" := by decide

/-- C4 (amended): canonicalization before registry lookup is exactly the
anchored rewrite of a leading `on`/`off`/`report` to `get` — no separate
prefix strip and no trailing `_v2` strip occur before the lookup (a name
without one of the three prefixes, e.g. one merely carrying a `_v2` marker,
is left unchanged); the raw push name onBattery with no requested command
resolves to the registry entry for getBattery. -/
theorem c4_normalization_rewrite (l : List Char) :
    canonicalizeChars ('o' :: 'n' :: l) = 'g' :: 'e' :: 't' :: l ∧
    canonicalizeChars ('o' :: 'f' :: 'f' :: l) = 'g' :: 'e' :: 't' :: l ∧
    canonicalizeChars ('r' :: 'e' :: 'p' :: 'o' :: 'r' :: 't' :: l) =
      'g' :: 'e' :: 't' :: l ∧
    (['o', 'n'].isPrefixOf l = false → ['o', 'f', 'f'].isPrefixOf l = false →
      ['r', 'e', 'p', 'o', 'r', 't'].isPrefixOf l = false →
      canonicalizeChars l = l) ∧
    (handle "onBattery" none).registryHit = some "getBattery" := by
  refine ⟨?_, ?_, ?_, ?_, by decide⟩
  · simp [canonicalizeChars, List.isPrefixOf]
  · simp [canonicalizeChars, List.isPrefixOf]
  · simp [canonicalizeChars, List.isPrefixOf]
  · intro h1 h2 h3
    simp [canonicalizeChars, h1, h2, h3]

/-- Witness for C4 (amended): the rewrite on a concrete name, and a
`_v2`-marked name left untouched by the pre-lookup canonicalization. -/
theorem c4_normalization_rewrite_witness :
    canonicalizeChars ('o' :: 'n' :: "Battery".data) = 'g' :: 'e' :: 't' :: "Battery".data ∧
    canonicalizeChars "relocate_v2".data = "relocate_v2".data := by
  constructor
  · exact (c4_normalization_rewrite "Battery".data).1
  · exact (c4_normalization_rewrite "relocate_v2".data).2.2.2.1
      (by decide) (by decide) (by decide)

/-- C5: a GetChargeState failure body (`msg == "fail"`) with code "30007",
"5" or "3" publishes `StatusEvent(True, DOCKED)` — the same DOCKED status for
all three codes — and succeeds; any other failure body with a code other than
integer 0 publishes nothing and fails. -/
theorem c5_getChargeState_failure_codes (body : ChargeBody) :
    (body.msg = some "fail" →
      (body.code = some (JVal.str "30007") ∨ body.code = some (JVal.str "5") ∨
        body.code = some (JVal.str "3")) →
      getChargeState_handle_body body =
        (true, some (StatusEvent.mk true (some VacuumState.docked)))) ∧
    (body.code ≠ none → body.code ≠ some (JVal.int 0) →
      ¬(body.msg = some "fail" ∧
        (body.code = some (JVal.str "30007") ∨ body.code = some (JVal.str "5") ∨
          body.code = some (JVal.str "3"))) →
      getChargeState_handle_body body = (false, none)) := by
  constructor
  · intro hmsg hcode
    rcases hcode with h | h | h <;> simp [getChargeState_handle_body, hmsg, h]
  · intro h0 h1 hn
    by_cases hmsg : body.msg = some "fail"
    · have hn2 : ¬(body.code = some (JVal.str "30007") ∨ body.code = some (JVal.str "5") ∨
          body.code = some (JVal.str "3")) := fun hor => hn ⟨hmsg, hor⟩
      push_neg at hn2
      obtain ⟨n1, n2, n3⟩ := hn2
      simp [getChargeState_handle_body, hmsg, h0, h1, n1, n2, n3]
    · simp [getChargeState_handle_body, hmsg, h0, h1]

/-- Witness for C5: the "busy" code "5" resolves to DOCKED and success; an
unrecognized failure code publishes nothing and fails. -/
theorem c5_getChargeState_failure_codes_witness :
    getChargeState_handle_body
      (ChargeBody.mk (some (JVal.str "30007")) (some "fail") none none) =
      (true, some (StatusEvent.mk true (some VacuumState.docked))) ∧
    getChargeState_handle_body
      (ChargeBody.mk (some (JVal.int 500)) (some "fail") none none) =
      (false, none) := by
  constructor
  · exact (c5_getChargeState_failure_codes _).1 rfl (Or.inl rfl)
  · exact (c5_getChargeState_failure_codes _).2 (by decide) (by decide) (by decide)

/-- C6: the water-info parser on `{"amount": 3, "enable": 1}` publishes a
water-info event with level HIGH (display name "high") and mop attached, and
succeeds; on `{"amount": 99}` it fails, publishes nothing, and the emitter's
cached value stays at its prior value. -/
theorem c6_getWaterInfo_parse (prior : Option WaterInfoEvent) :
    getWaterInfo_handle_body_data_dict (WaterData.mk (some 3) (some 1)) =
      (true, some (WaterInfoEvent.mk true "high")) ∧
    getWaterInfo_handle_body_data_dict (WaterData.mk (some 99) none) = (false, none) ∧
    cacheAfter prior
      (getWaterInfo_handle_body_data_dict (WaterData.mk (some 99) none)).2 = prior := by
  refine ⟨by decide, by decide, ?_⟩
  rw [show (getWaterInfo_handle_body_data_dict (WaterData.mk (some 99) none)).2 = none
    from by decide]
  rfl

/-- C7: the legacy fallback raises `RuntimeError` exactly when the
lower-cased, prefix-stripped, `_v2`-stripped event name is one of the
obsolete canonical topics; all other names end in a non-fatal outcome
(map routing, set-ignoring, or logged drops). -/
theorem c7_handle_old_fatal_iff (event_name : String) (event : OldPayload)
    (requested : Bool) :
    handle_old event_name event requested = OldOutcome.fatal ↔
      oldEventKey event_name ∈ obsoleteTopics := by
  by_cases h1 : oldEventKey event_name ∈ obsoleteTopics
  · simp [handle_old, h1]
  · refine iff_of_false ?_ h1
    simp only [handle_old, h1, if_false]
    split_ifs with h2 h3
    · exact handleOldCore_ne_fatal _ _
    · simp
    · exact handleOldCore_ne_fatal _ _

/-- C8: canonicalization before registry lookup is idempotent — a second
application returns the first application's output unchanged. -/
theorem c8_canonicalize_idempotent (s : String) :
    canonicalize (canonicalize s) = canonicalize s := by
  show String.mk (canonicalizeChars (canonicalizeChars s.data)) =
    String.mk (canonicalizeChars s.data)
  exact congrArg String.mk (canonicalizeChars_idem s.data)

/-- C9: `set_available(b)` publishes a status event whose availability is `b`
and whose state component is exactly the prior state — the state is never
changed by `set_available`. -/
theorem c9_set_available_preserves_state (available : Bool) (current : StatusEvent) :
    (set_available_published available current).available = available ∧
    (set_available_published available current).state = current.state :=
  ⟨rfl, rfl⟩

/-- C10: every status event the GetChargeState handlers ever publish reports
available and DOCKED; a success body that lacks `isCharging == 1` publishes
nothing yet still succeeds, so GetChargeState can never report an undocked,
unavailable or error state. -/
theorem c10_getChargeState_docked_invariant (body : ChargeBody) :
    (∀ e : StatusEvent, (getChargeState_handle_body body).2 = some e →
      e.available = true ∧ e.state = some VacuumState.docked) ∧
    ((body.code = none ∨ body.code = some (JVal.int 0)) →
      body.dataDict.isCharging ≠ some (JVal.int 1) →
      getChargeState_handle_body body = (true, none)) := by
  constructor
  · intro e he
    unfold getChargeState_handle_body getChargeState_handle_body_data_dict at he
    split_ifs at he
    all_goals first
      | exact Option.noConfusion he
      | (obtain rfl : StatusEvent.mk true (some VacuumState.docked) = e :=
          Option.some.inj he
         exact ⟨rfl, rfl⟩)
  · intro hc hic
    rcases hc with hc | hc <;>
      simp [getChargeState_handle_body, getChargeState_handle_body_data_dict, hc, hic]

/-- Witness for C10: a charging success body publishes the
available-and-DOCKED event; a non-charging success body publishes nothing and
succeeds. -/
theorem c10_getChargeState_docked_invariant_witness :
    ((StatusEvent.mk true (some VacuumState.docked)).available = true ∧
      (StatusEvent.mk true (some VacuumState.docked)).state =
        some VacuumState.docked) ∧
    getChargeState_handle_body (ChargeBody.mk none none (some (ChargeData.mk none)) none) =
      (true, none) := by
  constructor
  · exact (c10_getChargeState_docked_invariant
      (ChargeBody.mk none none (some (ChargeData.mk (some (JVal.int 1)))) none)).1
      (StatusEvent.mk true (some VacuumState.docked)) (by decide)
  · exact (c10_getChargeState_docked_invariant
      (ChargeBody.mk none none (some (ChargeData.mk none)) none)).2
      (Or.inl rfl) (by decide)

end Deebotozmo
